import Mathlib

/-
Verification development for the simple-rmm agent (src/simple-rmm/agent/agent.py).

The development shallowly embeds the agent's connectivity and command-multiplexing
layer: the RMMClient connection manager (connect/heartbeat/receive loop,
agent.py lines 164-219), the message dispatcher (handle_message, lines 221-249),
the shell session manager (handle_shell_command and the send helpers,
lines 251-326), the VNC streaming controller (start_vnc/stop_vnc,
lines 512-569), and the VNCTunnelClient tunnel relay (lines 591-716).

Python dicts are embedded as association lists, machine state as explicit
records, thread/event-loop interleavings as explicit schedules, and exception
control flow as explicit outcome datatypes.  Each definition carries a comment
pointing at the source lines it embeds.
-/

/-- A decoded inbound control-channel message: the fields of the JSON object
that handle_message (agent.py lines 221-249) and its handlers read via
data.get.  A field is Option-valued because data.get returns None (or the
stated default) when the key is missing. -/
structure ParsedMsg where
  type? : Option String
  command : Option String
  sessionId : Option String
  agentId : Option String
  updateIds : Option (List String)
  quality : Option String
  fps : Option ℚ
deriving DecidableEq

/-- The mutable state of one RMMClient (agent.py lines 120-130), restricted to
the fields the claims are about.  websocket is the self.websocket field:
Option.none models the Python None, some b models a websocket object whose
underlying connection is open (b = true) or already closed (b = false) -
a Python websocket object is truthy in either case. -/
structure AgentSt where
  agent_id : String
  websocket : Option Bool
  connected : Bool
  heartbeatActive : Bool
  vnc_running : Bool
  vnc_thread : Option Unit
  shell_processes : List (String × Nat)
deriving DecidableEq

/-- RMMClient.__init__ (agent.py lines 121-130): no websocket, not connected,
no VNC loop, no shell sessions. -/
def initAgent : AgentSt :=
  { agent_id := "agent-uuid-0"
  , websocket := Option.none
  , connected := false
  , heartbeatActive := false
  , vnc_running := false
  , vnc_thread := Option.none
  , shell_processes := [] }

/-- Successful channel establishment (agent.py lines 169-189): the websocket
field is set to the fresh open connection, self.connected = True, and the
heartbeat task is started. -/
def establish (st : AgentSt) : AgentSt :=
  { st with websocket := some true, connected := true, heartbeatActive := true }

/-- Peer-initiated channel closure (agent.py lines 195-198): ConnectionClosed
is caught inside the async-with block, the finally clause cancels the
heartbeat task, and leaving the async-with closes the websocket object.
self.websocket still references the now-closed object and self.connected is
NOT touched on this path. -/
def peerClose (st : AgentSt) : AgentSt :=
  { st with
    websocket := (st.websocket.map (fun _ => false)),
    heartbeatActive := false }

/-- Error-path closure (agent.py lines 197-203): an exception escapes the
async-with block, so the finally clause cancels the heartbeat, the websocket
object is closed, and the outer handler sets self.connected = False before
the 5s backoff. -/
def errorClose (st : AgentSt) : AgentSt :=
  { st with
    websocket := (st.websocket.map (fun _ => false)),
    heartbeatActive := false,
    connected := false }

/-- A ControlChannel is active when the websocket field holds an object whose
underlying connection is still open. -/
def channelActive (st : AgentSt) : Bool :=
  st.websocket == some true

/-- The guard every outbound helper uses before sending
(agent.py lines 210, 310, 320, 336, 498, 543):
if self.websocket and self.connected.  A websocket object is truthy whether
or not its connection is still open, so the guard only checks presence of the
object and the connected flag. -/
def sendGuard (st : AgentSt) : Bool :=
  st.websocket.isSome && st.connected

/-- Outbound control-channel messages relevant to the claims
(agent.py lines 211-215, 311-316, 321-326). -/
inductive OutMsg where
  | heartbeatMsg (agentId : String)
  | shellOutput (agentId sessionId output : String)
  | shellExit (agentId sessionId : String) (exitCode : Int)
deriving DecidableEq

/-- RMMClient.send_shell_output (agent.py lines 308-316): the message handed
to websocket.send, or none when the guard rejects the send. -/
def send_shell_output (st : AgentSt) (sessionId output : String) : Option OutMsg :=
  if sendGuard st then some (OutMsg.shellOutput st.agent_id sessionId output)
  else Option.none

/-- RMMClient.send_shell_exit (agent.py lines 318-326). -/
def send_shell_exit (st : AgentSt) (sessionId : String) (exitCode : Int) : Option OutMsg :=
  if sendGuard st then some (OutMsg.shellExit st.agent_id sessionId exitCode)
  else Option.none

/-- One heartbeat tick (agent.py lines 209-215): after the 30s sleep the
message is sent only under the same guard. -/
def heartbeatSend (st : AgentSt) : Option OutMsg :=
  if sendGuard st then some (OutMsg.heartbeatMsg st.agent_id)
  else Option.none

/-- RMMClient.start_vnc (agent.py lines 512-524): if self.vnc_running, return
immediately; otherwise set the flag and launch the capture thread.  The
quality and fps arguments are captured by the capture_screen closure and do
not land in the object state. -/
def start_vnc (st : AgentSt) (quality : String) (fps : ℚ) : AgentSt :=
  if st.vnc_running then st
  else { st with vnc_running := true, vnc_thread := some () }

/-- RMMClient.stop_vnc (agent.py lines 564-569): clear the flag; the bounded
join on the capture thread mutates no object state. -/
def stop_vnc (st : AgentSt) : AgentSt :=
  { st with vnc_running := false }

/-- The quality preset table and its .get default
(agent.py lines 518-524): quality_settings.get(quality, (50, 30)),
yielding (resize_percent, interval). -/
def quality_settings (quality : String) : Nat × Nat :=
  if quality = "low" then (30, 50)
  else if quality = "medium" then (50, 30)
  else if quality = "high" then (75, 15)
  else (50, 30)

/-- The values captured by the capture_screen closure
(agent.py lines 524-557): the resize percentage and interval unpacked from
the preset table, and the argument the loop passes to time.sleep on line 554,
which is the expression 1 / fps. -/
structure VNCLoopConfig where
  resize_percent : Nat
  interval : Nat
  frameDelay : ℚ
deriving DecidableEq

/-- What start_vnc computes for the capture loop (agent.py lines 518-554):
resize_percent and interval come from the preset lookup on line 524;
the per-frame sleep on line 554 is time.sleep(1 / fps) and mentions neither
resize_percent nor interval. -/
def start_vnc_config (quality : String) (fps : ℚ) : VNCLoopConfig :=
  { resize_percent := (quality_settings quality).1
  , interval := (quality_settings quality).2
  , frameDelay := 1 / fps }

/-- The action the dispatcher routes a message to
(agent.py lines 225-249); noAction covers both the command_result branch
(pass, line 247-249) and the implicit fall-through for unrecognized types. -/
inductive DispatchAction where
  | authSuccess
  | shellExec (command : String) (sessionId : Option String)
  | checkUpdates
  | installUpdates (updateIds : List String)
  | vncStart (quality : String) (fps : ℚ)
  | vncStop
  | vncInput
  | noAction
deriving DecidableEq

/-- RMMClient.handle_message (agent.py lines 221-249): the if/elif chain on
data.get("type").  auth_success overwrites agent_id with
data.get("agentId", self.agent_id) (line 227); vnc_start/vnc_stop mutate the
VNC controller state; every other branch leaves the state unchanged and only
produces an action (or nothing). -/
def handle_message (st : AgentSt) (data : ParsedMsg) : AgentSt × DispatchAction :=
  if data.type? = some "auth_success" then
    ({ st with agent_id := data.agentId.getD st.agent_id }, DispatchAction.authSuccess)
  else if data.type? = some "shell_exec" then
    (st, DispatchAction.shellExec (data.command.getD "") data.sessionId)
  else if data.type? = some "check_updates" then
    (st, DispatchAction.checkUpdates)
  else if data.type? = some "install_updates" then
    (st, DispatchAction.installUpdates (data.updateIds.getD []))
  else if data.type? = some "vnc_start" then
    (start_vnc st (data.quality.getD "medium") (data.fps.getD 15)
    , DispatchAction.vncStart (data.quality.getD "medium") (data.fps.getD 15))
  else if data.type? = some "vnc_stop" then
    (stop_vnc st, DispatchAction.vncStop)
  else if data.type? = some "vnc_input" then
    (st, DispatchAction.vncInput)
  else if data.type? = some "command_result" then
    (st, DispatchAction.noAction)
  else
    (st, DispatchAction.noAction)

/-- The message types the if/elif chain of handle_message tests for
(agent.py lines 225-247). -/
def recognizedTypes : List String :=
  ["auth_success", "shell_exec", "check_updates", "install_updates",
   "vnc_start", "vnc_stop", "vnc_input", "command_result"]

/-- State change performed by dispatching one message. -/
def applyMsg (st : AgentSt) (m : ParsedMsg) : AgentSt :=
  (handle_message st m).1

/-- The receive loop (agent.py lines 192-203): each inbound raw message is
either a successfully decoded object (some m, handed to handle_message) or a
json.loads failure (Option.none).  A decode failure raises JSONDecodeError,
which the except websockets.exceptions.ConnectionClosed clause does NOT
catch: the finally cancels the heartbeat, the async-with closes the channel,
and the outer except sets connected = False (errorClose).  When the stream
ends (the server closed the channel) ConnectionClosed is caught and only the
heartbeat is cancelled (peerClose).  The returned list collects the actions
the dispatcher performed before the loop ended. -/
def recvLoop : AgentSt → List (Option ParsedMsg) → AgentSt × List DispatchAction
  | st, [] => (peerClose st, [])
  | st, Option.none :: _ => (errorClose st, [])
  | st, some m :: rest =>
    let next := recvLoop (applyMsg st m) rest
    (next.1, (handle_message st m).2 :: next.2)

/-- Folding the dispatcher over a list of successfully decoded messages. -/
def dispatchFold (st : AgentSt) (ms : List ParsedMsg) : AgentSt :=
  ms.foldl applyMsg st

/-- The actions the dispatcher produces along a list of successfully decoded
messages. -/
def actionsFold : AgentSt → List ParsedMsg → List DispatchAction
  | _, [] => []
  | st, m :: rest => (handle_message st m).2 :: actionsFold (applyMsg st m) rest

/-- One event a shell session's worker thread hands to the event loop
(agent.py lines 278-299): a shell_output line or the final shell_exit. -/
inductive ShellEvent where
  | output (sessionId line : String)
  | exitEv (sessionId : String) (code : Int)
deriving DecidableEq

/-- The session id an event carries. -/
def eventSid : ShellEvent → String
  | ShellEvent.output s _ => s
  | ShellEvent.exitEv s _ => s

/-- The sequence of events one session's run_command thread produces, in
program order (agent.py lines 256-302).  The run argument is the outcome of
Popen: ok (lines, returncode) gives the combined-output lines in the order
the process wrote them followed by the exit event (lines 278-289);
error e is the except branch (lines 291-299), which first reports the error
text as output and then an exit with the sentinel code 1.  takeWhile mirrors
the sentinel of iter(process.stdout.readline, two quotes) and filter mirrors
the if line: guard on line 279. -/
def runCommandEvents (sessionId : String) (run : Except String (List String × Int)) :
    List ShellEvent :=
  match run with
  | Except.ok (lines, code) =>
    (((lines.takeWhile (fun l => l != "")).filter (fun l => l != "")).map
      (fun l => ShellEvent.output sessionId l)) ++ [ShellEvent.exitEv sessionId code]
  | Except.error e =>
    [ShellEvent.output sessionId ("Error: " ++ e ++ "\n"),
     ShellEvent.exitEv sessionId 1]

/-- Python dict assignment self.shell_processes[session_id] = process
(agent.py line 276) on an association-list embedding of the dict: replace
the binding in place if the key is present, else append it. -/
def shell_register (m : List (String × Nat)) (sessionId : String) (pid : Nat) :
    List (String × Nat) :=
  if m.any (fun p => p.1 == sessionId) then
    m.map (fun p => if p.1 == sessionId then (sessionId, pid) else p)
  else m ++ [(sessionId, pid)]

/-- The finally clause of run_command (agent.py lines 300-302):
if session_id in self.shell_processes: del self.shell_processes[session_id]. -/
def shell_finish (m : List (String × Nat)) (sessionId : String) :
    List (String × Nat) :=
  if m.any (fun p => p.1 == sessionId) then
    m.filter (fun p => !(p.1 == sessionId))
  else m

/-- The two mutations the live-session dict undergoes: registration when a
shell_exec command arrives and the worker registers its process (line 276),
and removal in the worker's finally clause when the process terminates,
normally or on error (lines 300-302). -/
inductive ShellOp where
  | register (sessionId : String) (pid : Nat)
  | finish (sessionId : String)
deriving DecidableEq

/-- Apply one mutation to the live-session dict. -/
def applyShellOp (m : List (String × Nat)) : ShellOp → List (String × Nat)
  | ShellOp.register s pid => shell_register m s pid
  | ShellOp.finish s => shell_finish m s

/-- Every state of the live-session dict reachable from the empty dict of
RMMClient.__init__ (agent.py line 130) by register/finish steps. -/
def runShellOps (ops : List ShellOp) : List (String × Nat) :=
  ops.foldl applyShellOp []

/-- l1 is an initial segment of l2. -/
def IsInitSegment {α : Type} (l1 l2 : List α) : Prop :=
  ∃ t, l1 ++ t = l2

/-- Fair-for-nobody interleaving of several FIFO queues: the schedule names,
cycle by cycle, which queue the event loop drains next.  This models how
asyncio.run_coroutine_threadsafe hands each worker thread's sends, in that
thread's program order, to the single event loop (agent.py lines 280-299),
which executes them one at a time in arrival order. -/
def mergeSchedule {α : Type} : List (List α) → List Nat → List α
  | _, [] => []
  | qs, i :: rest =>
    match qs[i]? with
    | some (e :: q) => e :: mergeSchedule (qs.set i q) rest
    | some [] => mergeSchedule qs rest
    | Option.none => mergeSchedule qs rest

/-- The per-session event queues of a list of concurrent sessions, each
queue in its worker thread's program order. -/
def sessionQueues (sessions : List (String × Except String (List String × Int))) :
    List (List ShellEvent) :=
  sessions.map (fun p => runCommandEvents p.1 p.2)

/-- The control-channel delivery order restricted to one session id: merge
the session queues under an arbitrary schedule and keep the events carrying
that id. -/
def deliveredFor (sessions : List (String × Except String (List String × Int)))
    (sched : List Nat) (sid : String) : List ShellEvent :=
  (mergeSchedule (sessionQueues sessions) sched).filter (fun e => eventSid e == sid)

/-- The socket fields of one VNCTunnelClient (agent.py lines 599-607).
A field is Option.none when it is Python None; some b holds a socket object
whose file descriptor is still open (b = true) or already closed (b = false). -/
structure TunnelSockets where
  tunnel_socket : Option Bool
  vnc_server_socket : Option Bool
  running : Bool
deriving DecidableEq

/-- socket.close() with any exception swallowed (agent.py lines 625-628,
669-672): the object remains, its descriptor is no longer open. -/
def closeSock (s : Option Bool) : Option Bool :=
  s.map (fun _ => false)

/-- Whether an Option-held socket still has an open descriptor. -/
def sockOpen : Option Bool → Bool
  | some true => true
  | _ => false

/-- How one pass of the try block of _tunnel_loop (agent.py lines 640-666)
can end.  serverConnectFail: the tunnel socket object was created but
connect() raised (ConnectionRefusedError or other).  authSendFail: connected,
but sending the auth line raised.  vncConnectFail: the local socket object
was created but connecting to the local VNC port raised.  relayEnd:
_relay_data was entered and eventually returned (zero-length read on either
side, lines 698-708) or raised (socket error, lines 711-716). -/
inductive AttemptOutcome where
  | serverConnectFail
  | authSendFail
  | vncConnectFail
  | relayEnd
deriving DecidableEq

/-- The socket fields at the moment the try block of _tunnel_loop is exited,
for each way it can end (agent.py lines 640-666). -/
def attemptBody (st : TunnelSockets) : AttemptOutcome → TunnelSockets
  | AttemptOutcome.serverConnectFail => { st with tunnel_socket := some true }
  | AttemptOutcome.authSendFail => { st with tunnel_socket := some true }
  | AttemptOutcome.vncConnectFail =>
    { st with tunnel_socket := some true, vnc_server_socket := some true }
  | AttemptOutcome.relayEnd =>
    { st with tunnel_socket := some true, vnc_server_socket := some true }

/-- The finally clause of _tunnel_loop (agent.py lines 667-679): for each of
the two sockets in turn, if the field is set, close it with exceptions
swallowed and then set the field to None. -/
def tunnelFinally (st : TunnelSockets) : TunnelSockets :=
  let st1 := { st with tunnel_socket := closeSock st.tunnel_socket }
  let st2 := { st1 with tunnel_socket := Option.none }
  let st3 := { st2 with vnc_server_socket := closeSock st2.vnc_server_socket }
  { st3 with vnc_server_socket := Option.none }

/-- One full relay attempt: the try body ending in any of its ways, followed
unconditionally by the finally clause. -/
def tunnelAttempt (st : TunnelSockets) (o : AttemptOutcome) : TunnelSockets :=
  tunnelFinally (attemptBody st o)

/-- VNCTunnelClient.stop (agent.py lines 621-636): clear running and close
whichever sockets are set, each close wrapped in try/except pass; the
bounded thread join mutates no socket field. -/
def stopTunnel (st : TunnelSockets) : TunnelSockets :=
  { st with
    running := false,
    tunnel_socket := closeSock st.tunnel_socket,
    vnc_server_socket := closeSock st.vnc_server_socket }

/-- A relay attempt leaks a socket when either field still holds an object
with an open descriptor. -/
def leakedSocket (st : TunnelSockets) : Bool :=
  sockOpen st.tunnel_socket || sockOpen st.vnc_server_socket

/-- The authentication line of the tunnel handshake (agent.py line 647). -/
def tunnelAuthMsg (agentId authToken : String) : String :=
  "TUNNEL_AUTH:" ++ agentId ++ ":" ++ authToken ++ "\n"

/-- One iteration of the relay loop (agent.py lines 685-709): select reported
a socket readable and a non-empty chunk was copied to the opposite side. -/
inductive RelayStep where
  | fromServer (chunk : String)
  | fromLocal (chunk : String)
deriving DecidableEq

/-- The externally visible actions of one relay attempt, in program order. -/
inductive TunnelAction where
  | connectServer
  | sendServer (data : String)
  | connectLocal
  | sendLocal (data : String)
deriving DecidableEq

/-- The sends the relay loop performs (agent.py lines 694-709): a chunk read
from the tunnel socket is written to the local socket and vice versa. -/
def relayActions : List RelayStep → List TunnelAction
  | [] => []
  | RelayStep.fromServer c :: rest => TunnelAction.sendLocal c :: relayActions rest
  | RelayStep.fromLocal c :: rest => TunnelAction.sendServer c :: relayActions rest

/-- The action trace of one pass of the _tunnel_loop try block that reaches
the relay (agent.py lines 642-659): connect to the server relay endpoint
(lines 643-644), send the auth line (lines 647-648), connect to the local
VNC service (lines 653-654), then relay. -/
def tunnelAttemptActions (agentId authToken : String) (relay : List RelayStep) :
    List TunnelAction :=
  TunnelAction.connectServer
    :: TunnelAction.sendServer (tunnelAuthMsg agentId authToken)
    :: TunnelAction.connectLocal
    :: relayActions relay

/-- The data chunks an action trace writes to the relay socket, in order. -/
def serverSends : List TunnelAction → List String
  | [] => []
  | TunnelAction.sendServer d :: rest => d :: serverSends rest
  | TunnelAction.connectServer :: rest => serverSends rest
  | TunnelAction.connectLocal :: rest => serverSends rest
  | TunnelAction.sendLocal _ :: rest => serverSends rest

/-- The chunks the relay loop reads from the local service, in order; these
are exactly what it forwards to the relay socket. -/
def localChunks : List RelayStep → List String
  | [] => []
  | RelayStep.fromLocal c :: rest => c :: localChunks rest
  | RelayStep.fromServer _ :: rest => localChunks rest

/-!  Theorems.  -/

/-- Claim C1, counterexample.  The claim says a malformed inbound message is
dropped and the control channel stays open.  In the code the JSONDecodeError
raised on line 194 is not caught by the except clause on line 195, so it
tears the connection down: starting from a freshly established channel, a
receive stream consisting of a malformed message followed by a well-formed
vnc_start message produces no dispatched action at all (the loop exited at
the malformed message), the channel is no longer active, and the state is
the error-path disconnect state. -/
theorem C1_counterexample :
    recvLoop (establish initAgent)
        [Option.none,
         some { type? := some "vnc_start", command := Option.none,
                sessionId := Option.none, agentId := Option.none,
                updateIds := Option.none, quality := some "high",
                fps := some 10 }]
      = (errorClose (establish initAgent), [])
    ∧ channelActive (errorClose (establish initAgent)) = false
    ∧ (errorClose (establish initAgent)).connected = false := by
  exact ⟨rfl, rfl, rfl⟩

/-- Claim C1, amended.  For every inbound stream consisting of well-formed
messages followed by one whose payload fails to decode, the receive loop
dispatches exactly the well-formed messages before the failure, and the
decode failure exits the loop through the error path: everything after it is
dropped, the heartbeat task is cancelled, the channel is closed and the
connected flag is cleared, and the agent falls through to the reconnect
loop rather than crashing. -/
theorem C1_decode_failure_exits_loop (st : AgentSt) (good : List ParsedMsg)
    (rest : List (Option ParsedMsg)) :
    recvLoop st (good.map some ++ Option.none :: rest)
      = (errorClose (dispatchFold st good), actionsFold st good)
    ∧ (errorClose (dispatchFold st good)).connected = false
    ∧ (errorClose (dispatchFold st good)).heartbeatActive = false := by
  refine ⟨?_, rfl, rfl⟩
  induction good generalizing st with
  | nil => rfl
  | cons m ms ih =>
    simp only [List.map_cons, List.cons_append, recvLoop, List.append_eq,
      ih (applyMsg st m), dispatchFold, List.foldl_cons, actionsFold]

/-- Claim C2, counterexample.  The claim says that upon channel closure,
peer-initiated or error, the connection manager marks itself disconnected so
that no outbound operation performs a send while no channel is active.  In
the code the peer-initiated path (ConnectionClosed caught on line 195) never
clears self.connected: in the reachable state right after a peer-initiated
close of an established channel, no channel is active, yet connected is
still true and send_shell_output, send_shell_exit and the heartbeat all pass
their guard and hand a message to websocket.send on the stale channel. -/
theorem C2_counterexample :
    channelActive (peerClose (establish initAgent)) = false
    ∧ (peerClose (establish initAgent)).connected = true
    ∧ (send_shell_output (peerClose (establish initAgent)) "s1" "hi\n").isSome = true
    ∧ (send_shell_exit (peerClose (establish initAgent)) "s1" 0).isSome = true
    ∧ (heartbeatSend (peerClose (establish initAgent))).isSome = true := by
  exact ⟨rfl, rfl, rfl, rfl, rfl⟩

/-- Claim C2, amended.  Outbound sends are guarded by "websocket is set and
connected is true", so every state whose connected flag is false (and every
state with no websocket object) rejects send_shell_output, send_shell_exit
and the heartbeat send.  Only the error-path closure clears the connected
flag; it also cancels the heartbeat task, so after an error-path closure all
outbound operations perform no send.  The peer-initiated closure cancels the
heartbeat task but does not clear the connected flag. -/
theorem C2_sends_rejected_when_disconnected (st : AgentSt) (sessionId output : String)
    (exitCode : Int) :
    send_shell_output { st with connected := false } sessionId output = Option.none
    ∧ send_shell_exit { st with connected := false } sessionId exitCode = Option.none
    ∧ heartbeatSend { st with connected := false } = Option.none
    ∧ send_shell_output { st with websocket := Option.none } sessionId output = Option.none
    ∧ (errorClose st).connected = false
    ∧ send_shell_output (errorClose st) sessionId output = Option.none
    ∧ send_shell_exit (errorClose st) sessionId exitCode = Option.none
    ∧ heartbeatSend (errorClose st) = Option.none
    ∧ (errorClose st).heartbeatActive = false
    ∧ (peerClose st).heartbeatActive = false := by
  refine ⟨?_, ?_, ?_, ?_, rfl, ?_, ?_, ?_, rfl, rfl⟩ <;>
    simp [send_shell_output, send_shell_exit, heartbeatSend, sendGuard, errorClose]

/-- Claim C5: on every termination path of a tunnel relay attempt - server
connect failure, auth send failure, local connect failure, relay end by
error or peer close - and on an explicit stop, both the relay socket and the
local socket end up closed: no path leaves either socket's descriptor
open. -/
theorem C5_tunnel_sockets_closed_together (st : TunnelSockets) (o : AttemptOutcome) :
    leakedSocket (tunnelAttempt st o) = false
    ∧ leakedSocket (stopTunnel st) = false := by
  constructor
  · cases o <;> rfl
  · cases h1 : st.tunnel_socket <;> cases h2 : st.vnc_server_socket <;>
      simp [leakedSocket, stopTunnel, closeSock, sockOpen, h1, h2]

/-- Claim C6: if starting a shell session's process fails, the session first
hands the event loop a shell_output whose output embeds the error text
(between the prefix and the trailing newline of the f-string on line 293)
and then a shell_exit with the non-zero sentinel status 1; the except branch
swallows the exception, so the worker ends normally instead of crashing the
agent. -/
theorem C6_startup_failure_reports_error (sessionId err : String) :
    ∃ pre post,
      runCommandEvents sessionId (Except.error err)
        = [ShellEvent.output sessionId (pre ++ err ++ post),
           ShellEvent.exitEv sessionId 1]
      ∧ pre = "Error: " ∧ post = "\n" ∧ (1 : Int) ≠ 0 := by
  exact ⟨"Error: ", "\n", rfl, rfl, rfl, by decide⟩

/-- The relay loop forwards to the relay socket exactly the chunks read from
the local service, in order (agent.py lines 703-709). -/
theorem serverSends_relayActions (rs : List RelayStep) :
    serverSends (relayActions rs) = localChunks rs := by
  induction rs with
  | nil => rfl
  | cons s rest ih => cases s <;> simp [relayActions, serverSends, localChunks, ih]

/-- Claim C7: on every relay attempt that reaches the handshake, the very
first action after opening the relay TCP connection is sending the single
line TUNNEL_AUTH:agentId:authToken followed by a newline, and the sequence
of chunks written to the relay socket starts with that line, before any
relayed bytes. -/
theorem C7_tunnel_auth_first (agentId authToken : String) (relay : List RelayStep) :
    serverSends (tunnelAttemptActions agentId authToken relay)
      = ("TUNNEL_AUTH:" ++ agentId ++ ":" ++ authToken ++ "\n") :: localChunks relay
    ∧ (tunnelAttemptActions agentId authToken relay)[0]? = some TunnelAction.connectServer
    ∧ (tunnelAttemptActions agentId authToken relay)[1]?
        = some (TunnelAction.sendServer (tunnelAuthMsg agentId authToken)) := by
  refine ⟨?_, rfl, rfl⟩
  simp [tunnelAttemptActions, serverSends, tunnelAuthMsg, serverSends_relayActions]

/-- Claim C9: calling start_vnc while the capture loop is already running
returns without touching the state (at most one capture loop), and stop_vnc
is idempotent and total: any number of stop_vnc calls, from any state,
including one where the loop was never started, leaves the controller
stopped. -/
theorem C9_vnc_start_noop_stop_idempotent (st : AgentSt) (quality : String) (fps : ℚ) :
    (st.vnc_running = true → start_vnc st quality fps = st)
    ∧ stop_vnc (stop_vnc st) = stop_vnc st
    ∧ (stop_vnc st).vnc_running = false := by
  refine ⟨?_, rfl, rfl⟩
  intro h
  simp [start_vnc, h]

/-- Claim C9, witness: the theorem at a running controller and at the
freshly initialized (never started) one. -/
theorem C9_witness :
    start_vnc { initAgent with vnc_running := true, vnc_thread := some () } "high" 20
      = { initAgent with vnc_running := true, vnc_thread := some () }
    ∧ stop_vnc (stop_vnc initAgent) = stop_vnc initAgent
    ∧ (stop_vnc initAgent).vnc_running = false := by
  exact ⟨(C9_vnc_start_noop_stop_idempotent
            { initAgent with vnc_running := true, vnc_thread := some () } "high" 20).1 rfl,
         (C9_vnc_start_noop_stop_idempotent initAgent "low" 1).2.1,
         (C9_vnc_start_noop_stop_idempotent initAgent "low" 1).2.2⟩

/-- Claim C10: for every quality string, recognized or not, and every fps,
the sleep expression of the capture loop is exactly 1 / fps: it does not
depend on the quality argument, so the interval component of the preset
table (50, 30 and 15 for low, medium and high) is never consumed by the
loop, and the quality argument only determines the resize percentage, which
in turn does not depend on fps. -/
theorem C10_frame_delay_only_fps (quality quality2 : String) (fps fps2 : ℚ) :
    (start_vnc_config quality fps).frameDelay = 1 / fps
    ∧ (start_vnc_config quality fps).frameDelay = (start_vnc_config quality2 fps).frameDelay
    ∧ (start_vnc_config quality fps).resize_percent
        = (start_vnc_config quality fps2).resize_percent
    ∧ (quality_settings "low").2 = 50
    ∧ (quality_settings "medium").2 = 30
    ∧ (quality_settings "high").2 = 15 := by
  exact ⟨rfl, rfl, rfl, by decide, by decide, by decide⟩

/-- Registration (dict assignment) does not change the key list when the key
is already bound, and appends the key otherwise. -/
theorem keys_shell_register (m : List (String × Nat)) (sessionId : String) (pid : Nat) :
    (shell_register m sessionId pid).map Prod.fst
      = if m.any (fun p => p.1 == sessionId) then m.map Prod.fst
        else m.map Prod.fst ++ [sessionId] := by
  unfold shell_register
  by_cases h : m.any (fun p => p.1 == sessionId)
  · simp only [h, if_true, List.map_map]
    apply List.map_congr_left
    intro p hp
    simp only [Function.comp_apply]
    by_cases hps : p.1 = sessionId
    · simp [hps]
    · simp [hps]
  · simp [h]

/-- Registration preserves distinctness of the keys of the live-session
dict. -/
theorem nodup_keys_shell_register (m : List (String × Nat)) (s : String) (pid : Nat)
    (h : (m.map Prod.fst).Nodup) :
    ((shell_register m s pid).map Prod.fst).Nodup := by
  rw [keys_shell_register]
  by_cases hc : m.any (fun p => p.1 == s)
  · simpa [hc] using h
  · have hs : s ∉ m.map Prod.fst := by
      intro hmem
      obtain ⟨p, hp, hps⟩ := List.mem_map.mp hmem
      apply hc
      exact List.any_eq_true.mpr ⟨p, hp, by simp [hps]⟩
    simp [hc, List.nodup_append, h, hs]

/-- Removal preserves distinctness of the keys of the live-session dict. -/
theorem nodup_keys_shell_finish (m : List (String × Nat)) (s : String)
    (h : (m.map Prod.fst).Nodup) :
    ((shell_finish m s).map Prod.fst).Nodup := by
  unfold shell_finish
  by_cases hc : m.any (fun p => p.1 == s)
  · simp only [hc, if_true]
    exact List.Nodup.sublist (List.Sublist.map Prod.fst (List.filter_sublist m)) h
  · simpa [hc] using h

/-- Every reachable state of the live-session dict has pairwise-distinct
keys. -/
theorem nodup_keys_runShellOps (ops : List ShellOp) :
    ∀ m, (m.map Prod.fst).Nodup → ((ops.foldl applyShellOp m).map Prod.fst).Nodup := by
  induction ops with
  | nil => intro m h; simpa using h
  | cons op rest ih =>
    intro m h
    simp only [List.foldl_cons]
    apply ih
    cases op with
    | register s pid => exact nodup_keys_shell_register m s pid h
    | finish s => exact nodup_keys_shell_finish m s h

/-- In an association list with pairwise-distinct keys, at most one binding
carries any given key. -/
theorem count_le_one_of_nodup_keys (m : List (String × Nat)) (sid : String)
    (h : (m.map Prod.fst).Nodup) :
    (m.filter (fun p => p.1 == sid)).length ≤ 1 := by
  induction m with
  | nil => simp
  | cons a l ih =>
    simp only [List.map_cons, List.nodup_cons] at h
    obtain ⟨ha, hl⟩ := h
    by_cases hs : a.1 == sid
    · have hnil : l.filter (fun p => p.1 == sid) = [] := by
        rw [List.filter_eq_nil_iff]
        intro p hp hps
        apply ha
        rw [beq_iff_eq.mp hs]
        rw [← beq_iff_eq.mp hps]
        exact List.mem_map.mpr ⟨p, hp, rfl⟩
      simp [List.filter_cons, hs, hnil]
    · simp only [List.filter_cons, hs, Bool.false_eq_true, if_false]
      exact ih hl

/-- Claim C4: in every state of the live-session dict reachable from the
empty dict by register/finish steps - including runs in which two shell_exec
requests carry the same session id, where the second registration overwrites
the first binding - each session_id is bound to at most one process, and the
finally clause of the worker (removal on termination, normal or error)
leaves no binding for the terminated session's id. -/
theorem C4_session_map_invariant (ops : List ShellOp) (sid : String) :
    ((runShellOps ops).filter (fun p => p.1 == sid)).length ≤ 1
    ∧ ∀ m : List (String × Nat),
        (shell_finish m sid).filter (fun p => p.1 == sid) = [] := by
  constructor
  · exact count_le_one_of_nodup_keys _ _ (nodup_keys_runShellOps ops [] (by simp))
  · intro m
    unfold shell_finish
    by_cases hc : m.any (fun p => p.1 == sid)
    · simp [hc, List.filter_filter]
    · simp only [hc, Bool.false_eq_true, if_false]
      rw [List.filter_eq_nil_iff]
      intro p hp hps
      apply hc
      exact List.any_eq_true.mpr ⟨p, hp, hps⟩

/-- Claim C8: a decoded message whose type is missing or is not one of the
eight strings the if/elif chain of handle_message tests for leaves the
entire agent state unchanged and produces no action: the dispatcher neither
raises nor touches channel or session state, so newer server message kinds
are ignored. -/
theorem C8_unrecognized_type_ignored (st : AgentSt) (data : ParsedMsg)
    (h : ∀ t, data.type? = some t → t ∉ recognizedTypes) :
    handle_message st data = (st, DispatchAction.noAction) := by
  cases hd : data.type? with
  | none => simp [handle_message, hd]
  | some t =>
    have ht := h t hd
    simp only [recognizedTypes, List.mem_cons, List.not_mem_nil, or_false,
      not_or] at ht
    obtain ⟨h1, h2, h3, h4, h5, h6, h7, h8⟩ := ht
    simp [handle_message, hd, h1, h2, h3, h4, h5, h6, h7, h8]

/-- Claim C8, witness: a concrete future message kind is ignored by the
dispatcher from the initial state. -/
theorem C8_witness :
    handle_message initAgent
        { type? := some "telemetry_v2", command := Option.none,
          sessionId := Option.none, agentId := Option.none,
          updateIds := Option.none, quality := Option.none, fps := Option.none }
      = (initAgent, DispatchAction.noAction) := by
  apply C8_unrecognized_type_ignored
  intro t ht
  have ht2 : some "telemetry_v2" = some t := ht
  injection ht2 with he
  subst he
  decide

/-- Core interleaving lemma: merging FIFO queues under any schedule and
projecting onto a predicate that holds exactly on the events of queue j
yields an initial segment of queue j - the merge can drop a tail (an
unfinished schedule) but can never reorder one queue's events or let a
foreign event through the projection. -/
theorem filter_mergeSchedule {α : Type} (p : α → Bool) (sched : List Nat) :
    ∀ (qs : List (List α)) (j : Nat),
      (∀ e ∈ (qs[j]?).getD [], p e = true) →
      (∀ i, i ≠ j → ∀ e ∈ (qs[i]?).getD [], p e = false) →
      IsInitSegment ((mergeSchedule qs sched).filter p) ((qs[j]?).getD []) := by
  induction sched with
  | nil =>
    intro qs j hj ho
    exact ⟨(qs[j]?).getD [], by simp [mergeSchedule]⟩
  | cons i rest ih =>
    intro qs j hj ho
    cases hqi : qs[i]? with
    | none =>
      have hm : mergeSchedule qs (i :: rest) = mergeSchedule qs rest := by
        simp [mergeSchedule, hqi]
      rw [hm]
      exact ih qs j hj ho
    | some q =>
      cases q with
      | nil =>
        have hm : mergeSchedule qs (i :: rest) = mergeSchedule qs rest := by
          simp [mergeSchedule, hqi]
        rw [hm]
        exact ih qs j hj ho
      | cons e qtl =>
        have hlen : i < qs.length := by
          by_contra hnl
          rw [List.getElem?_eq_none (Nat.le_of_not_lt hnl)] at hqi
          exact Option.noConfusion hqi
        have hm : mergeSchedule qs (i :: rest) = e :: mergeSchedule (qs.set i qtl) rest := by
          simp [mergeSchedule, hqi]
        by_cases hij : i = j
        · subst hij
          have hpe : p e = true := hj e (by rw [hqi]; exact List.mem_cons_self e qtl)
          have hset : (qs.set i qtl)[i]? = some qtl := List.getElem?_set_self hlen
          have hj2 : ∀ e2 ∈ ((qs.set i qtl)[i]?).getD [], p e2 = true := by
            rw [hset]
            intro e2 he2
            exact hj e2 (by rw [hqi]; exact List.mem_cons_of_mem e he2)
          have ho2 : ∀ i2, i2 ≠ i → ∀ e2 ∈ ((qs.set i qtl)[i2]?).getD [], p e2 = false := by
            intro i2 hne e2 he2
            rw [List.getElem?_set_ne (fun hh => hne hh.symm)] at he2
            exact ho i2 hne e2 he2
          obtain ⟨t, ht⟩ := ih (qs.set i qtl) i hj2 ho2
          rw [hset] at ht
          refine ⟨t, ?_⟩
          rw [hm, List.filter_cons_of_pos hpe, List.cons_append, hqi]
          simp only [Option.getD_some] at ht ⊢
          rw [ht]
        · have hpe : p e = false :=
            ho i hij e (by rw [hqi]; exact List.mem_cons_self e qtl)
          have hj2 : ∀ e2 ∈ ((qs.set i qtl)[j]?).getD [], p e2 = true := by
            rw [List.getElem?_set_ne hij]
            exact hj
          have ho2 : ∀ i2, i2 ≠ j → ∀ e2 ∈ ((qs.set i qtl)[i2]?).getD [], p e2 = false := by
            intro i2 hne e2 he2
            by_cases hii : i2 = i
            · subst hii
              rw [List.getElem?_set_self hlen] at he2
              simp only [Option.getD_some] at he2
              exact ho i2 hne e2 (by rw [hqi]; exact List.mem_cons_of_mem e he2)
            · rw [List.getElem?_set_ne (fun hh => hii hh.symm)] at he2
              exact ho i2 hne e2 he2
          obtain ⟨t, ht⟩ := ih (qs.set i qtl) j hj2 ho2
          rw [List.getElem?_set_ne hij] at ht
          refine ⟨t, ?_⟩
          rw [hm]
          simp only [List.filter_cons, hpe, Bool.false_eq_true, if_false]
          exact ht

/-- Every event a session's worker produces carries that session's id. -/
theorem eventSid_runCommandEvents (sessionId : String)
    (run : Except String (List String × Int)) :
    ∀ e ∈ runCommandEvents sessionId run, eventSid e = sessionId := by
  intro e he
  cases run with
  | ok pr =>
    obtain ⟨lines, code⟩ := pr
    simp only [runCommandEvents, List.mem_append, List.mem_map,
      List.mem_singleton] at he
    rcases he with ⟨l, _, rfl⟩ | rfl <;> rfl
  | error err =>
    simp only [runCommandEvents, List.mem_cons, List.not_mem_nil,
      or_false, List.mem_singleton] at he
    rcases he with rfl | rfl <;> rfl

/-- A session's event sequence is a block of output events followed by one
exit event. -/
theorem runCommandEvents_shape (sessionId : String)
    (run : Except String (List String × Int)) :
    ∃ outs c, runCommandEvents sessionId run = outs ++ [ShellEvent.exitEv sessionId c]
      ∧ ∀ e ∈ outs, ∃ s l, e = ShellEvent.output s l := by
  cases run with
  | ok pr =>
    obtain ⟨lines, code⟩ := pr
    refine ⟨_, code, rfl, ?_⟩
    intro e he
    obtain ⟨l, _, hl⟩ := List.mem_map.mp he
    exact ⟨sessionId, l, hl.symm⟩
  | error err =>
    refine ⟨[ShellEvent.output sessionId ("Error: " ++ err ++ "\n")], 1, rfl, ?_⟩
    intro e he
    rw [List.mem_singleton] at he
    subst he
    exact ⟨sessionId, _, rfl⟩

/-- Distinct positions of a duplicate-free list hold distinct values. -/
theorem ne_of_nodup_getElem? {α : Type} {l : List α} (hl : l.Nodup) {i j : Nat}
    (hij : i ≠ j) {a b : α} (ha : l[i]? = some a) (hb : l[j]? = some b) : a ≠ b := by
  obtain ⟨hi, rfl⟩ := List.getElem?_eq_some_iff.mp ha
  obtain ⟨hj2, rfl⟩ := List.getElem?_eq_some_iff.mp hb
  intro hab
  exact hij (hl.getElem_inj_iff.mp hab)

/-- In an initial segment of a block of outputs followed by one exit, no
output event sits after an exit event. -/
theorem no_output_after_exit {filtered outs : List ShellEvent} {sid : String} {c0 : Int}
    (hseg : IsInitSegment filtered (outs ++ [ShellEvent.exitEv sid c0]))
    (houts : ∀ e ∈ outs, ∃ s l, e = ShellEvent.output s l) :
    ∀ (i k : Nat) (c : Int) (line : String), i < k →
      filtered[i]? = some (ShellEvent.exitEv sid c) →
      filtered[k]? ≠ some (ShellEvent.output sid line) := by
  intro i k c line hik hi hk
  obtain ⟨t, ht⟩ := hseg
  have hlenf : i < filtered.length := (List.getElem?_eq_some_iff.mp hi).1
  have hfull : (outs ++ [ShellEvent.exitEv sid c0])[i]? = some (ShellEvent.exitEv sid c) := by
    rw [← ht, List.getElem?_append_left hlenf]
    exact hi
  have hige : outs.length ≤ i := by
    by_contra hlt
    push_neg at hlt
    rw [List.getElem?_append_left hlt] at hfull
    have hmem : ShellEvent.exitEv sid c ∈ outs := List.getElem?_mem hfull
    obtain ⟨s, l, hout⟩ := houts _ hmem
    exact ShellEvent.noConfusion hout
  have hklt : k < filtered.length := (List.getElem?_eq_some_iff.mp hk).1
  have hfl : filtered.length + t.length = outs.length + 1 := by
    have h3 := congrArg List.length ht
    simpa using h3
  omega

/-- Claim C3: for concurrent shell sessions with pairwise-distinct session
ids, under every event-loop schedule the shell_output/shell_exit messages
delivered for a given session id form an initial segment of that session's
worker-produced sequence - so output lines arrive in production order - and
no output event for that id is delivered after that id's exit event. -/
theorem C3_session_output_ordered
    (sessions : List (String × Except String (List String × Int)))
    (sched : List Nat) (j : Nat) (sid : String)
    (run : Except String (List String × Int))
    (hnd : (sessions.map Prod.fst).Nodup)
    (hj : sessions[j]? = some (sid, run)) :
    IsInitSegment (deliveredFor sessions sched sid) (runCommandEvents sid run)
    ∧ ∀ (i k : Nat) (c : Int) (line : String), i < k →
        (deliveredFor sessions sched sid)[i]? = some (ShellEvent.exitEv sid c) →
        (deliveredFor sessions sched sid)[k]? ≠ some (ShellEvent.output sid line) := by
  have hq : (sessionQueues sessions)[j]? = some (runCommandEvents sid run) := by
    simp [sessionQueues, hj]
  have hj2 : ∀ e ∈ (((sessionQueues sessions)[j]?).getD []),
      (fun e => eventSid e == sid) e = true := by
    rw [hq]
    intro e he
    simpa [beq_iff_eq] using eventSid_runCommandEvents sid run e he
  have ho2 : ∀ i, i ≠ j → ∀ e ∈ (((sessionQueues sessions)[i]?).getD []),
      (fun e => eventSid e == sid) e = false := by
    intro i hne e he
    cases hqi : sessions[i]? with
    | none =>
      rw [show (sessionQueues sessions)[i]? = Option.none by
        simp [sessionQueues, hqi]] at he
      exact absurd he (List.not_mem_nil e)
    | some pr =>
      obtain ⟨sid2, run2⟩ := pr
      rw [show (sessionQueues sessions)[i]? = some (runCommandEvents sid2 run2) by
        simp [sessionQueues, hqi]] at he
      simp only [Option.getD_some] at he
      have hsid : eventSid e = sid2 := eventSid_runCommandEvents sid2 run2 e he
      have hne2 : sid2 ≠ sid := by
        have hfi : (sessions.map Prod.fst)[i]? = some sid2 := by
          simp [hqi]
        have hfj : (sessions.map Prod.fst)[j]? = some sid := by
          simp [hj]
        exact ne_of_nodup_getElem? hnd hne hfi hfj
      simp [hsid, hne2]
  have hmain := filter_mergeSchedule (fun e => eventSid e == sid) sched
    (sessionQueues sessions) j hj2 ho2
  rw [hq] at hmain
  simp only [Option.getD_some] at hmain
  have hseg : IsInitSegment (deliveredFor sessions sched sid)
      (runCommandEvents sid run) := hmain
  refine ⟨hseg, ?_⟩
  obtain ⟨outs, c0, hshape, houts⟩ := runCommandEvents_shape sid run
  rw [hshape] at hseg
  exact no_output_after_exit hseg houts

/-- Two concurrent demo sessions with distinct session ids, used to witness
the ordering theorem on a concrete interleaving. -/
def demoSessions : List (String × Except String (List String × Int)) :=
  [("s1", Except.ok (["a\n", "b\n"], 0)), ("s2", Except.ok (["c\n"], 0))]

/-- Claim C3, witness: the ordering theorem applied to two concrete
interleaved sessions under a concrete alternating schedule. -/
theorem C3_witness :
    (demoSessions.map Prod.fst).Nodup
    ∧ demoSessions[0]? = some ("s1", Except.ok (["a\n", "b\n"], 0))
    ∧ (IsInitSegment (deliveredFor demoSessions [1, 0, 0, 1, 0] "s1")
          (runCommandEvents "s1" (Except.ok (["a\n", "b\n"], 0)))
      ∧ ∀ (i k : Nat) (c : Int) (line : String), i < k →
          (deliveredFor demoSessions [1, 0, 0, 1, 0] "s1")[i]?
              = some (ShellEvent.exitEv "s1" c) →
          (deliveredFor demoSessions [1, 0, 0, 1, 0] "s1")[k]?
              ≠ some (ShellEvent.output "s1" line)) := by
  exact ⟨by decide, rfl,
    C3_session_output_ordered demoSessions [1, 0, 0, 1, 0] 0 "s1"
      (Except.ok (["a\n", "b\n"], 0)) (by decide) rfl⟩
